import Mathlib

/-!
Verification development for the Project Silence privacy pipeline and its
frontend animation layer.  The backend pipeline (router, matcher,
quality gate, public pool) is present in the repository only as design
documents, so its operations are modelled from the specification; the
AbyssalLayer particle system is embedded directly from the frontend
source.  Machine floats are modelled as rationals (`Rat`) and the
external embedding/generation providers as black-box parameters.
-/

namespace Silence

/-- Modelled from the spec: a JSON-like value used to serialize records of
the `global_decoys` table (missing backend storage layer). -/
inductive JValue
  | str : String → JValue
  | num : Nat → JValue
  | rat : Rat → JValue
  | arr : List JValue → JValue

/-- Modelled from the spec: the GlobalDecoy record of the Public Pool
(`global_decoys` table): id, content, summary, topics, embedding,
created_at — and deliberately no owner/session/user identifier. -/
structure GlobalDecoy where
  id : Nat
  content : String
  summary : String
  topics : List String
  embedding : List Rat
  created_at : Nat
deriving DecidableEq

/-- Serialization of a GlobalDecoy to a flat field list (schema order). -/
def serializeGlobalDecoy (g : GlobalDecoy) : List (String × JValue) :=
  [("id", JValue.num g.id),
   ("content", JValue.str g.content),
   ("summary", JValue.str g.summary),
   ("topics", JValue.arr (g.topics.map JValue.str)),
   ("embedding", JValue.arr (g.embedding.map JValue.rat)),
   ("created_at", JValue.num g.created_at)]

/-- Field lookup by key in a serialized record. -/
def lookupField (k : String) : List (String × JValue) → Option JValue
  | [] => none
  | kv :: rest => if kv.1 = k then some kv.2 else lookupField k rest

/-- Decode a JSON array of strings. -/
def decodeStrs : List JValue → Option (List String)
  | [] => some []
  | JValue.str s :: rest => (decodeStrs rest).map (fun l => s :: l)
  | _ => none

/-- Decode a JSON array of rationals. -/
def decodeRats : List JValue → Option (List Rat)
  | [] => some []
  | JValue.rat q :: rest => (decodeRats rest).map (fun l => q :: l)
  | _ => none

/-- Parse a serialized record back into a GlobalDecoy, reading each field
by name; any missing or ill-typed field fails the parse. -/
def parseGlobalDecoy (o : List (String × JValue)) : Option GlobalDecoy :=
  match lookupField "id" o, lookupField "content" o, lookupField "summary" o,
        lookupField "topics" o, lookupField "embedding" o, lookupField "created_at" o with
  | some (JValue.num i), some (JValue.str c), some (JValue.str s),
    some (JValue.arr ts), some (JValue.arr es), some (JValue.num ca) =>
      match decodeStrs ts, decodeRats es with
      | some topics, some emb => some ⟨i, c, s, topics, emb, ca⟩
      | _, _ => none
  | _, _, _, _, _, _ => none

/-- The owner/session/user identifier field names the anonymity boundary
forbids in any Public Pool record. -/
def identifierKeys : List String := ["user_id", "owner_id", "session_id"]

/-- A serialized record carries no owner/session/user identifier field. -/
def hasNoIdentifierField (o : List (String × JValue)) : Bool :=
  o.all (fun kv => !(identifierKeys.contains kv.1))

/-- Status of a pipeline-private Decoy. -/
inductive DecoyStatus
  | PENDING
  | PUBLISHED
  | DISCARDED
deriving DecidableEq

/-- Modelled from the spec: a pending Decoy record, private to the
pipeline until resolved (missing backend decoy factory / store). -/
structure Decoy where
  id : Nat
  conversation_id : Nat
  content : String
  summary : Option String
  topics : List String
  embedding : List Rat
  status : DecoyStatus
  created_at : Nat
deriving DecidableEq

/-- Acknowledgment returned by the Quality Gate. -/
inductive Ack
  | resolved
  | noPending
deriving DecidableEq

/-- Modelled from the spec: a resolved Feedback record; the acknowledgment
returned to the first caller is stored so duplicate calls can return the
same acknowledgment. -/
structure Feedback where
  conversation_id : Nat
  helpful : Bool
  submitted_at : Nat
  ack : Ack
deriving DecidableEq

/-- Modelled from the spec: the store state the Quality Gate acts on —
pipeline-private decoys, the Public Pool, and resolved feedback. -/
structure GateState where
  decoys : List Decoy
  pool : List GlobalDecoy
  feedback : List Feedback
deriving DecidableEq

/-- The PENDING decoys belonging to one conversation. -/
def pendingOf (cid : Nat) (st : GateState) : List Decoy :=
  st.decoys.filter (fun d => decide (d.conversation_id = cid ∧ d.status = DecoyStatus.PENDING))

/-- Publication of one Decoy as an ownerless GlobalDecoy carrying the
generated summary. -/
def mkGlobal (summary : String) (now : Nat) (d : Decoy) : GlobalDecoy :=
  { id := d.id, content := d.content, summary := summary,
    topics := d.topics, embedding := d.embedding, created_at := now }

/-- The resolved feedback already recorded for a conversation, if any. -/
def findFeedback (cid : Nat) (st : GateState) : Option Feedback :=
  st.feedback.find? (fun f => decide (f.conversation_id = cid))

/-- Modelled from the spec: the Quality Gate `resolve(conversation_id,
helpful)` operation (missing backend).  The first call is authoritative:
on helpful=true each PENDING decoy of the conversation is published to
the Public Pool with the provider-generated summary and marked PUBLISHED;
on helpful=false they are marked DISCARDED.  A later call finds the
stored feedback and is a no-op returning the same acknowledgment. -/
def resolve (cid : Nat) (helpful : Bool) (summary : String) (now : Nat)
    (st : GateState) : GateState × Ack :=
  match findFeedback cid st with
  | some f => (st, f.ack)
  | none =>
      let pend := pendingOf cid st
      let ack := if pend.isEmpty then Ack.noPending else Ack.resolved
      let newDecoys := st.decoys.map (fun d =>
        if d.conversation_id = cid ∧ d.status = DecoyStatus.PENDING then
          { d with status := if helpful then DecoyStatus.PUBLISHED else DecoyStatus.DISCARDED }
        else d)
      let newPool := if helpful then st.pool ++ pend.map (mkGlobal summary now) else st.pool
      ({ decoys := newDecoys, pool := newPool,
         feedback := { conversation_id := cid, helpful := helpful,
                       submitted_at := now, ack := ack } :: st.feedback }, ack)

/-- Modelled from the spec: the TTL reaper sweeping expired PENDING decoys
to DISCARDED (missing backend background task). -/
def ttlSweep (now ttl : Nat) (st : GateState) : GateState :=
  { st with decoys := st.decoys.map (fun d =>
      if d.status = DecoyStatus.PENDING ∧ d.created_at + ttl ≤ now then
        { d with status := DecoyStatus.DISCARDED }
      else d) }

/-- Modelled from the spec: the Decoy Factory writing one generated
variant as a PENDING decoy (missing backend). -/
def addPendingDecoy (i cid : Nat) (content : String) (topics : List String)
    (emb : List Rat) (now : Nat) (st : GateState) : GateState :=
  { st with decoys := st.decoys ++
      [{ id := i, conversation_id := cid, content := content, summary := none,
         topics := topics, embedding := emb, status := DecoyStatus.PENDING,
         created_at := now }] }

/-- One step of the system as seen by the decoy store: a Quality Gate
resolution, a TTL sweep, or the factory adding a fresh PENDING decoy. -/
inductive GateStep : GateState → GateState → Prop
  | resolveStep (cid : Nat) (helpful : Bool) (s : String) (now : Nat) (st : GateState) :
      GateStep st (resolve cid helpful s now st).1
  | sweepStep (now ttl : Nat) (st : GateState) :
      GateStep st (ttlSweep now ttl st)
  | factoryStep (i cid : Nat) (c : String) (ts : List String) (e : List Rat)
      (now : Nat) (st : GateState) :
      GateStep st (addPendingDecoy i cid c ts e now st)

/-- The legal status evolutions: stay put, or leave PENDING for one of the
two terminal statuses. -/
def statusLe (a b : DecoyStatus) : Prop :=
  a = b ∨ (a = DecoyStatus.PENDING ∧
    (b = DecoyStatus.PUBLISHED ∨ b = DecoyStatus.DISCARDED))

/-- The two router classes of a query. -/
inductive QueryClass
  | FACTUAL
  | EXPERIENTIAL
deriving DecidableEq

/-- Leading-whitespace removal on a character list. -/
def dropWhileChars (p : Char → Bool) : List Char → List Char
  | [] => []
  | c :: cs => if p c then dropWhileChars p cs else c :: cs

/-- Whitespace trimming on both ends of a character list. -/
def trimChars (l : List Char) : List Char :=
  dropWhileChars Char.isWhitespace
    ((dropWhileChars Char.isWhitespace l.reverse).reverse)

/-- Whitespace trimming of a provider label. -/
def labelTrim (s : String) : String := ⟨trimChars s.data⟩

/-- Modelled from the spec: parsing of the single-label reply of the Text
Generation Provider into the closed classification enumeration (missing
`layer0_router.py`). -/
def parseLabel (s : String) : Option QueryClass :=
  if labelTrim s = "FACTUAL" then some QueryClass.FACTUAL
  else if labelTrim s = "EXPERIENTIAL" then some QueryClass.EXPERIENTIAL
  else none

/-- Modelled from the spec: the Semantic Router `classify(query_text)`
(missing `layer0_router.py`).  The provider reply is `none` when the
provider call failed; a failed call or an unparseable label falls open to
EXPERIENTIAL so that the full privacy pipeline runs. -/
def classify (providerReply : Option String) : QueryClass :=
  match providerReply with
  | none => QueryClass.EXPERIENTIAL
  | some s =>
      match parseLabel s with
      | some c => c
      | none => QueryClass.EXPERIENTIAL

/-- A surfaced peer-insight match. -/
structure MatchResult where
  content : String
  summary : String
  similarity : Rat
deriving DecidableEq

/-- The relevance tiers of the Similarity Matcher. -/
inductive Tier
  | precision
  | discovery
  | surprise
deriving DecidableEq

/-- Tier of a similarity value: Precision at 0.85 and above, Discovery from
0.70, Surprise from 0.60, no tier below 0.60. -/
def tierOf (s : Rat) : Option Tier :=
  if (85 : Rat)/100 ≤ s then some Tier.precision
  else if (70 : Rat)/100 ≤ s then some Tier.discovery
  else if (60 : Rat)/100 ≤ s then some Tier.surprise
  else none

/-- Best candidate of one tier: highest similarity, ties broken by the
earliest created_at. -/
def bestIn (t : Tier) (l : List (GlobalDecoy × Rat)) : Option (GlobalDecoy × Rat) :=
  l.foldl (fun acc p =>
    if tierOf p.2 = some t then
      match acc with
      | none => some p
      | some b =>
          if b.2 < p.2 ∨ (p.2 = b.2 ∧ p.1.created_at < b.1.created_at) then some p
          else some b
    else acc) none

/-- Modelled from the spec: the Similarity Matcher search over the Public
Pool (missing `layer1_matching.py`).  `scoreOf` is the black-box cosine
similarity of a pool entry against the query embedding; `seed` drives the
stratified sampling over the non-empty tiers.  Candidates below 0.60 are
dropped; if none clears 0.60 the matcher returns nothing. -/
def search (scoreOf : GlobalDecoy → Rat) (pool : List GlobalDecoy) (seed : Nat) :
    Option MatchResult :=
  let scored := pool.map (fun g => (g, scoreOf g))
  let eligible := scored.filter (fun p => decide ((60 : Rat)/100 ≤ p.2))
  let tiers := [Tier.precision, Tier.discovery, Tier.surprise].filter
    (fun t => eligible.any (fun p => decide (tierOf p.2 = some t)))
  match tiers.get? (seed % tiers.length) with
  | none => none
  | some t =>
      (bestIn t eligible).map (fun p =>
        { content := p.1.content, summary := p.1.summary, similarity := p.2 })

/-- Outcome of one user turn as seen by the pipeline entry point. -/
structure PipelineOutcome where
  reply : String
  peerInsight : Option MatchResult
  matcherInvoked : Bool
deriving DecidableEq

/-- Modelled from the spec: the `submitQuery` entry point control flow
(missing `app.py` loop).  A FACTUAL classification bypasses the matcher
and the decoy path and answers plainly; an EXPERIENTIAL one runs the
matcher over the Public Pool and schedules the factory-produced decoy
variants as PENDING. -/
def submitQuery (routerReply : Option String) (chatReply : String)
    (scoreOf : GlobalDecoy → Rat) (seed : Nat)
    (variants : List (Nat × String × List String × List Rat))
    (cid now : Nat) (st : GateState) : GateState × PipelineOutcome :=
  match classify routerReply with
  | QueryClass.FACTUAL =>
      (st, { reply := chatReply, peerInsight := none, matcherInvoked := false })
  | QueryClass.EXPERIENTIAL =>
      let m := search scoreOf st.pool seed
      let st2 := variants.foldl
        (fun s v => addPendingDecoy v.1 cid v.2.1 v.2.2.1 v.2.2.2 now s) st
      (st2, { reply := chatReply, peerInsight := m, matcherInvoked := true })

/-- Modelled from the spec: cosine similarity of two embedding vectors,
the similarity measure of the Similarity Matcher (missing
`layer1_matching.py`; the embedding computation itself is a black box). -/
noncomputable def cosineSim {n : ℕ} (u v : EuclideanSpace ℝ (Fin n)) : ℝ :=
  (inner u v : ℝ) / (‖u‖ * ‖v‖)

/-- Modelled from the spec: the similarity score of two texts under a
black-box embedding function. -/
noncomputable def scoreTexts {n : ℕ} (embed : String → EuclideanSpace ℝ (Fin n))
    (a b : String) : ℝ :=
  cosineSim (embed a) (embed b)

/-- A concrete one-dimensional embedding used to exhibit the score
properties at an explicit input. -/
def embedOne : String → EuclideanSpace ℝ (Fin 1) := fun _ _ => 1

/-- The two debris states the AbyssalLayer animation uses. -/
inductive DebrisState
  | falling
  | merged
deriving DecidableEq

/-- A debris particle of the AbyssalLayer canvas: position, velocity,
size, rgb color and alpha (`color[3]`), and its state. -/
structure DebrisParticle where
  x : Rat
  y : Rat
  vx : Rat
  vy : Rat
  size : Rat
  colorR : Rat
  colorG : Rat
  colorB : Rat
  alpha : Rat
  state : DebrisState
deriving DecidableEq

/-- Linear interpolation, as in the source: `a + (b - a) * t`. -/
def lerp (a b t : Rat) : Rat := a + (b - a) * t

/-- CONFIG.DEBRIS_GRAVITY of AbyssalLayer. -/
def debrisGravity : Rat := 25/100

/-- CONFIG.DEBRIS_DRAG of AbyssalLayer. -/
def debrisDrag : Rat := 98/100

/-- CONFIG.ZONE_HEIGHT_RATIO of AbyssalLayer (bottom 22 percent). -/
def zoneHeightFrac : Rat := 22/100

/-- One debris particle created by `createDebris(originX, originY,
spreadWidth)`; the `r` arguments are the Math.random() draws in source
order.  Fresh debris is white, alpha 1.0, state falling. -/
def mkDebris (originX originY spreadWidth r1 r2 r3 r4 r5 : Rat) : DebrisParticle :=
  { x := originX + (r1 - 1/2) * spreadWidth
    y := originY + (r2 - 1/2) * 40
    vx := (r3 - 1/2) * 4
    vy := r4 * (-3) - 1
    size := 3/2 + r5 * 3
    colorR := 255
    colorG := 255
    colorB := 255
    alpha := 1
    state := DebrisState.falling }

/-- One animation frame of a debris particle (the debris block of
`animate`): gravity and drag, move, merge into the liquid when a falling
particle passes `zoneTop` (velocity damped to a tenth, color reset to
cyan at alpha 1.0), fade a merged particle by `lerp(alpha, 0, 0.05)`, and
remove the particle (`none`) when its alpha drops below 0.01 or it falls
past the canvas bottom. -/
def stepDebris (gravity drag zoneTop canvasHeight : Rat) (p : DebrisParticle) :
    Option DebrisParticle :=
  let vy1 := p.vy + gravity
  let vx1 := p.vx * drag
  let x1 := p.x + vx1
  let y1 := p.y + vy1
  if p.state = DebrisState.falling ∧ zoneTop < y1 then
    let a2 := lerp 1 0 (5/100)
    if a2 < 1/100 ∨ canvasHeight < y1 then none
    else some { x := x1, y := y1, vx := vx1, vy := vy1 * (1/10), size := p.size,
                colorR := 100, colorG := 255, colorB := 255, alpha := a2,
                state := DebrisState.merged }
  else
    let a2 := if p.state = DebrisState.merged then lerp p.alpha 0 (5/100) else p.alpha
    if a2 < 1/100 ∨ canvasHeight < y1 then none
    else some { x := x1, y := y1, vx := vx1, vy := vy1, size := p.size,
                colorR := p.colorR, colorG := p.colorG, colorB := p.colorB,
                alpha := a2, state := p.state }

/-- A bubble particle of the AbyssalLayer evaporation effect. -/
structure Bubble where
  x : Rat
  y : Rat
  vx : Rat
  vy : Rat
  size : Rat
  alpha : Rat
  life : Nat
  maxLife : Rat
deriving DecidableEq

/-- One bubble created by `createEvaporation`; `w`/`h` are the window
size and the `r` arguments the Math.random() draws in source order.
Fresh bubbles start invisible with `life = 0` and
`maxLife = 100 + Math.random() * 100`. -/
def mkBubble (w h rx ry rvx rvy rsize rml : Rat) : Bubble :=
  { x := rx * w
    y := h * (1 - zoneHeightFrac) + ry * 50
    vx := (rvx - 1/2) * (1/2)
    vy := -1 - rvy * 2
    size := 1 + rsize * 3
    alpha := 0
    life := 0
    maxLife := 100 + rml * 100 }

/-- One animation frame of a bubble (the bubbles block of `animate`):
increment life, accelerate upward, rise, wobble by `sin(life * 0.1) * 0.5`
(the transcendental `Math.sin` is passed in as `sinFn`), fade in below
life 20 and out within 30 frames of maxLife, and remove the bubble
(`none`) once life exceeds maxLife. -/
def stepBubble (sinFn : Rat → Rat) (b : Bubble) : Option Bubble :=
  let life1 := b.life + 1
  let vy1 := b.vy - 5/100
  let y1 := b.y + vy1
  let x1 := b.x + sinFn ((life1 : Rat) * (1/10)) * (1/2)
  let a1 :=
    if life1 < 20 then lerp b.alpha (6/10) (1/10)
    else if b.maxLife - 30 < (life1 : Rat) then lerp b.alpha 0 (1/10)
    else b.alpha
  if b.maxLife < (life1 : Rat) then none
  else some { x := x1, y := y1, vx := b.vx, vy := vy1, size := b.size,
              alpha := a1, life := life1, maxLife := b.maxLife }

/-- Iterated bubble frames; `none` once the bubble has been removed. -/
def stepBubbleN (sinFn : Rat → Rat) : Nat → Bubble → Option Bubble
  | 0, b => some b
  | n + 1, b =>
      match stepBubble sinFn b with
      | none => none
      | some b2 => stepBubbleN sinFn n b2

/-- A sample PENDING decoy used to exhibit the status machine at a
concrete input. -/
def c3Decoy : Decoy :=
  { id := 7, conversation_id := 1, content := "decoy", summary := none,
    topics := [], embedding := [], status := DecoyStatus.PENDING, created_at := 0 }

/-- A sample store state holding only `c3Decoy`. -/
def c3State : GateState := { decoys := [c3Decoy], pool := [], feedback := [] }

/-- The store state after positively resolving conversation 1 of `c3State`. -/
def c3State2 : GateState := (resolve 1 true "peer summary" 5 c3State).1

/-- A sample Public Pool entry used to exhibit the no-match behavior at a
concrete input. -/
def c6Global : GlobalDecoy :=
  { id := 11, content := "pool entry", summary := "pool summary",
    topics := ["t"], embedding := [1], created_at := 4 }

/-- A sample PENDING decoy used to exhibit publication at a concrete input. -/
def c7Decoy : Decoy :=
  { id := 3, conversation_id := 2, content := "decoy text", summary := none,
    topics := ["topic"], embedding := [1/2], status := DecoyStatus.PENDING,
    created_at := 1 }

/-- A sample store state holding only `c7Decoy`. -/
def c7State : GateState := { decoys := [c7Decoy], pool := [], feedback := [] }

/-- A sample merged debris particle at full alpha. -/
def c9Debris : DebrisParticle :=
  { x := 0, y := 0, vx := 0, vy := 0, size := 1, colorR := 100, colorG := 255,
    colorB := 255, alpha := 1, state := DebrisState.merged }

/-- The debris particle one frame after `c9Debris`. -/
def c9Next : DebrisParticle :=
  { x := 0, y := 1/4, vx := 0, vy := 1/4, size := 1, colorR := 100,
    colorG := 255, colorB := 255, alpha := 19/20, state := DebrisState.merged }

theorem decodeStrs_map (l : List String) :
    decodeStrs (l.map JValue.str) = some l := by
  induction l with
  | nil => rfl
  | cons a t ih => simp [decodeStrs, ih]

theorem decodeRats_map (l : List Rat) :
    decodeRats (l.map JValue.rat) = some l := by
  induction l with
  | nil => rfl
  | cons a t ih => simp [decodeRats, ih]

theorem serialize_ownerless (g : GlobalDecoy) :
    hasNoIdentifierField (serializeGlobalDecoy g) = true := rfl

theorem parse_serialize (g : GlobalDecoy) :
    parseGlobalDecoy (serializeGlobalDecoy g) = some g := by
  simp [parseGlobalDecoy, serializeGlobalDecoy, lookupField,
    decodeStrs_map, decodeRats_map]

/-- C1: every GlobalDecoy of the Public Pool carries no owner, session or
user identifier field, parsing its serialization recovers it exactly, and
the parsed record again serializes without any such identifier field. -/
theorem globalDecoy_roundtrip_ownerless (g : GlobalDecoy) :
    hasNoIdentifierField (serializeGlobalDecoy g) = true ∧
    parseGlobalDecoy (serializeGlobalDecoy g) = some g ∧
    (parseGlobalDecoy (serializeGlobalDecoy g)).map
      (fun g2 => hasNoIdentifierField (serializeGlobalDecoy g2)) = some true := by
  refine ⟨serialize_ownerless g, parse_serialize g, ?_⟩
  rw [parse_serialize g]
  simp [serialize_ownerless]

theorem resolve_found (cid : Nat) (hl : Bool) (s : String) (t : Nat)
    (st : GateState) (f : Feedback) (hf : findFeedback cid st = some f) :
    resolve cid hl s t st = (st, f.ack) := by
  unfold resolve
  rw [hf]

theorem findFeedback_after_resolve (cid : Nat) (hl : Bool) (s : String) (t : Nat)
    (st : GateState) (hf : findFeedback cid st = none) :
    findFeedback cid (resolve cid hl s t st).1 =
      some { conversation_id := cid, helpful := hl, submitted_at := t,
             ack := if (pendingOf cid st).isEmpty then Ack.noPending else Ack.resolved } := by
  unfold resolve
  rw [hf]
  simp [findFeedback, List.find?]

theorem resolve_snd (cid : Nat) (hl : Bool) (s : String) (t : Nat)
    (st : GateState) (hf : findFeedback cid st = none) :
    (resolve cid hl s t st).2 =
      (if (pendingOf cid st).isEmpty then Ack.noPending else Ack.resolved) := by
  unfold resolve
  rw [hf]

/-- C2: the Quality Gate resolve is idempotent — after a first resolve of a
conversation, a second resolve with the same or a different helpful value
(and any summary or timestamp) leaves the state of the first call
untouched and returns the first call's acknowledgment. -/
theorem resolve_idempotent (cid : Nat) (h1 h2 : Bool) (s1 s2 : String)
    (t1 t2 : Nat) (st : GateState) :
    resolve cid h2 s2 t2 (resolve cid h1 s1 t1 st).1 =
      ((resolve cid h1 s1 t1 st).1, (resolve cid h1 s1 t1 st).2) := by
  cases hf : findFeedback cid st with
  | some f =>
      rw [resolve_found cid h1 s1 t1 st f hf]
      rw [resolve_found cid h2 s2 t2 st f hf]
  | none =>
      rw [resolve_found cid h2 s2 t2 _ _ (findFeedback_after_resolve cid h1 s1 t1 st hf)]
      rw [resolve_snd cid h1 s1 t1 st hf]

theorem statusLe_refl (a : DecoyStatus) : statusLe a a := Or.inl rfl

theorem statusLe_trans (a b c : DecoyStatus) (h1 : statusLe a b) (h2 : statusLe b c) :
    statusLe a c := by
  rcases h1 with rfl | ⟨ha, hb⟩
  · exact h2
  · rcases h2 with rfl | ⟨hb2, _⟩
    · exact Or.inr ⟨ha, hb⟩
    · rcases hb with rfl | rfl <;> simp at hb2

theorem resolve_fst_decoys (cid : Nat) (hl : Bool) (s : String) (t : Nat)
    (st : GateState) :
    (resolve cid hl s t st).1.decoys = st.decoys ∨
    (resolve cid hl s t st).1.decoys = st.decoys.map (fun d =>
      if d.conversation_id = cid ∧ d.status = DecoyStatus.PENDING then
        { d with status := if hl then DecoyStatus.PUBLISHED else DecoyStatus.DISCARDED }
      else d) := by
  cases hf : findFeedback cid st with
  | some f => exact Or.inl (by rw [resolve_found cid hl s t st f hf])
  | none =>
      right
      unfold resolve
      rw [hf]

theorem statusLe_congr (l l2 : List Decoy) (h : l2 = l) (i : Nat)
    (hi : i < l.length) (hi2 : i < l2.length) :
    statusLe (l.get ⟨i, hi⟩).status (l2.get ⟨i, hi2⟩).status := by
  subst h
  exact statusLe_refl _

theorem statusLe_map_congr (f : Decoy → Decoy)
    (hf : ∀ d, statusLe d.status (f d).status) (l l2 : List Decoy)
    (h : l2 = l.map f) (i : Nat) (hi : i < l.length) (hi2 : i < l2.length) :
    statusLe (l.get ⟨i, hi⟩).status (l2.get ⟨i, hi2⟩).status := by
  subst h
  simp only [List.get_eq_getElem, List.getElem_map]
  exact hf _

theorem statusLe_append_congr (l l2 ext : List Decoy) (h : l2 = l ++ ext)
    (i : Nat) (hi : i < l.length) (hi2 : i < l2.length) :
    statusLe (l.get ⟨i, hi⟩).status (l2.get ⟨i, hi2⟩).status := by
  subst h
  simp only [List.get_eq_getElem]
  rw [List.getElem_append_left hi]
  exact statusLe_refl _

theorem resolveMap_statusLe (cid : Nat) (hl : Bool) (d : Decoy) :
    statusLe d.status ((if d.conversation_id = cid ∧ d.status = DecoyStatus.PENDING then
      { d with status := if hl then DecoyStatus.PUBLISHED else DecoyStatus.DISCARDED }
      else d)).status := by
  by_cases hc : d.conversation_id = cid ∧ d.status = DecoyStatus.PENDING
  · rw [if_pos hc]
    refine Or.inr ⟨hc.2, ?_⟩
    cases hl
    · exact Or.inr rfl
    · exact Or.inl rfl
  · rw [if_neg hc]
    exact Or.inl rfl

theorem sweepMap_statusLe (now ttl : Nat) (d : Decoy) :
    statusLe d.status ((if d.status = DecoyStatus.PENDING ∧ d.created_at + ttl ≤ now then
      { d with status := DecoyStatus.DISCARDED } else d)).status := by
  by_cases hc : d.status = DecoyStatus.PENDING ∧ d.created_at + ttl ≤ now
  · rw [if_pos hc]
    exact Or.inr ⟨hc.1, Or.inr rfl⟩
  · rw [if_neg hc]
    exact Or.inl rfl

theorem gateStep_length_le (a b : GateState) (h : GateStep a b) :
    a.decoys.length ≤ b.decoys.length := by
  cases h with
  | resolveStep cid hl s now =>
      rcases resolve_fst_decoys cid hl s now a with h2 | h2
      · rw [h2]
      · rw [h2]
        simp
  | sweepStep now ttl => simp [ttlSweep]
  | factoryStep ii cid c ts e now => simp [addPendingDecoy]

theorem gateSteps_length_le (a b : GateState)
    (h : Relation.ReflTransGen GateStep a b) :
    a.decoys.length ≤ b.decoys.length := by
  induction h with
  | refl => exact le_refl _
  | tail hab hbc ih => exact le_trans ih (gateStep_length_le _ _ hbc)

theorem gateStep_statusLe (a b : GateState) (h : GateStep a b) (i : Nat)
    (hi : i < a.decoys.length) (hi2 : i < b.decoys.length) :
    statusLe (a.decoys.get ⟨i, hi⟩).status (b.decoys.get ⟨i, hi2⟩).status := by
  cases h with
  | resolveStep cid hl s now =>
      rcases resolve_fst_decoys cid hl s now a with h2 | h2
      · exact statusLe_congr _ _ h2 i hi hi2
      · exact statusLe_map_congr _ (resolveMap_statusLe cid hl) _ _ h2 i hi hi2
  | sweepStep now ttl =>
      exact statusLe_map_congr _ (sweepMap_statusLe now ttl) _ _ rfl i hi hi2
  | factoryStep ii cid c ts e now =>
      exact statusLe_append_congr _ _ _ rfl i hi hi2

/-- C3: along every reachable sequence of Quality Gate resolutions, TTL
sweeps and factory insertions, a decoy's status either stays put or moves
from PENDING to one of the terminal statuses PUBLISHED or DISCARDED; in
particular no step ever changes a PUBLISHED or DISCARDED status. -/
theorem decoy_status_monotone (st st2 : GateState)
    (h : Relation.ReflTransGen GateStep st st2) (i : Nat)
    (hi : i < st.decoys.length) (hi2 : i < st2.decoys.length) :
    statusLe (st.decoys.get ⟨i, hi⟩).status (st2.decoys.get ⟨i, hi2⟩).status := by
  revert hi2
  induction h with
  | refl => intro hi2; exact statusLe_refl _
  | tail hab hbc ih =>
      intro hi2
      exact statusLe_trans _ _ _
        (ih (lt_of_lt_of_le hi (gateSteps_length_le _ _ hab)))
        (gateStep_statusLe _ _ hbc i _ hi2)

theorem decoy_status_monotone_witness :
    statusLe ((c3State.decoys.get ⟨0, by decide⟩).status)
      ((c3State2.decoys.get ⟨0, by decide⟩).status) :=
  decoy_status_monotone c3State c3State2
    (Relation.ReflTransGen.single (GateStep.resolveStep 1 true "peer summary" 5 c3State))
    0 (by decide) (by decide)

theorem get_map_congr (f : Decoy → Decoy) (l l2 : List Decoy)
    (h : l2 = l.map f) (i : Nat) (hi : i < l.length) (hi2 : i < l2.length) :
    l2.get ⟨i, hi2⟩ = f (l.get ⟨i, hi⟩) := by
  subst h
  simp

/-- C7: a first helpful=true resolve of a conversation appends to the
Public Pool exactly one GlobalDecoy per PENDING decoy of that
conversation, each carrying the non-empty generated summary and no
owner/session/user identifier field, and marks every such source decoy
PUBLISHED. -/
theorem resolve_true_publishes (cid : Nat) (s : String) (now : Nat)
    (st : GateState) (hfb : findFeedback cid st = none) (hs : s ≠ "") :
    (resolve cid true s now st).1.pool =
      st.pool ++ (pendingOf cid st).map (mkGlobal s now) ∧
    (∀ g ∈ (pendingOf cid st).map (mkGlobal s now),
      g.summary = s ∧ g.summary ≠ "" ∧
      hasNoIdentifierField (serializeGlobalDecoy g) = true) ∧
    (resolve cid true s now st).1.decoys.length = st.decoys.length ∧
    (∀ i (hi : i < st.decoys.length)
        (hi2 : i < (resolve cid true s now st).1.decoys.length),
      (st.decoys.get ⟨i, hi⟩).conversation_id = cid →
      (st.decoys.get ⟨i, hi⟩).status = DecoyStatus.PENDING →
      ((resolve cid true s now st).1.decoys.get ⟨i, hi2⟩).status =
        DecoyStatus.PUBLISHED) := by
  have hd : (resolve cid true s now st).1.decoys = st.decoys.map (fun d =>
      if d.conversation_id = cid ∧ d.status = DecoyStatus.PENDING then
        { d with status := if true then DecoyStatus.PUBLISHED else DecoyStatus.DISCARDED }
      else d) := by
    unfold resolve
    rw [hfb]
  have hp : (resolve cid true s now st).1.pool =
      st.pool ++ (pendingOf cid st).map (mkGlobal s now) := by
    unfold resolve
    rw [hfb]
    rfl
  refine ⟨hp, ?_, ?_, ?_⟩
  · intro g hg
    rcases List.mem_map.mp hg with ⟨d, hd2, rfl⟩
    exact ⟨rfl, hs, serialize_ownerless _⟩
  · rw [hd]
    simp
  · intro i hi hi2 hcid hpend
    rw [get_map_congr _ _ _ hd i hi hi2]
    simp only [List.get_eq_getElem] at hcid hpend
    simp [hcid, hpend]

theorem resolve_true_publishes_witness :
    findFeedback 2 c7State = none ∧ "peer summary" ≠ "" ∧
    (resolve 2 true "peer summary" 9 c7State).1.pool =
      c7State.pool ++ (pendingOf 2 c7State).map (mkGlobal "peer summary" 9) :=
  ⟨by decide, by decide,
    (resolve_true_publishes 2 "peer summary" 9 c7State (by decide) (by decide)).1⟩

/-- C4: a query the router classifies FACTUAL bypasses the privacy
pipeline — the store (in particular its decoys) is unchanged, the
Similarity Matcher is not invoked, and no peer insight is surfaced. -/
theorem factual_bypasses_pipeline (routerReply : Option String)
    (chatReply : String) (scoreOf : GlobalDecoy → Rat) (seed : Nat)
    (variants : List (Nat × String × List String × List Rat)) (cid now : Nat)
    (st : GateState) (hc : classify routerReply = QueryClass.FACTUAL) :
    (submitQuery routerReply chatReply scoreOf seed variants cid now st).1 = st ∧
    (submitQuery routerReply chatReply scoreOf seed variants cid now st).1.decoys
      = st.decoys ∧
    (submitQuery routerReply chatReply scoreOf seed variants cid now st).2.matcherInvoked
      = false ∧
    (submitQuery routerReply chatReply scoreOf seed variants cid now st).2.peerInsight
      = none := by
  unfold submitQuery
  rw [hc]
  exact ⟨rfl, rfl, rfl, rfl⟩

theorem factual_bypasses_pipeline_witness :
    classify (some "FACTUAL") = QueryClass.FACTUAL ∧
    (submitQuery (some "FACTUAL") "plain answer" (fun _ => 0) 0 [] 1 0
      { decoys := [], pool := [], feedback := [] }).2.matcherInvoked = false :=
  ⟨by decide,
    (factual_bypasses_pipeline (some "FACTUAL") "plain answer" (fun _ => 0) 0 [] 1 0
      { decoys := [], pool := [], feedback := [] } (by decide)).2.2.1⟩

/-- C5: if the provider call behind the Semantic Router fails, or returns
a label parsing to neither FACTUAL nor EXPERIENTIAL, classification falls
open to EXPERIENTIAL so the full privacy pipeline runs. -/
theorem classify_fail_open (r : Option String)
    (h : r = none ∨ ∃ s, r = some s ∧ parseLabel s = none) :
    classify r = QueryClass.EXPERIENTIAL := by
  rcases h with rfl | ⟨s, rfl, hp⟩
  · rfl
  · simp [classify, hp]

theorem classify_fail_open_witness :
    classify (some "UNKNOWN LABEL") = QueryClass.EXPERIENTIAL :=
  classify_fail_open (some "UNKNOWN LABEL")
    (Or.inr ⟨"UNKNOWN LABEL", rfl, by decide⟩)

/-- C6: if every Public Pool candidate scores below the 0.60 threshold,
the Similarity Matcher returns nothing. -/
theorem search_below_threshold (scoreOf : GlobalDecoy → Rat)
    (pool : List GlobalDecoy) (seed : Nat)
    (h : ∀ g ∈ pool, scoreOf g < 60/100) :
    search scoreOf pool seed = none := by
  have he : (pool.map (fun g => (g, scoreOf g))).filter
      (fun p => decide ((60 : Rat)/100 ≤ p.2)) = [] := by
    rw [List.filter_eq_nil_iff]
    intro p hp
    rcases List.mem_map.mp hp with ⟨g, hg, rfl⟩
    simpa using not_le.mpr (h g hg)
  simp only [search]
  rw [he]
  simp

theorem search_below_threshold_witness :
    search (fun _ => (1:Rat)/2) [c6Global] 0 = none :=
  search_below_threshold (fun _ => (1:Rat)/2) [c6Global] 0
    (by intro g hg; norm_num)

theorem cosineSim_comm {n : ℕ} (u v : EuclideanSpace ℝ (Fin n)) :
    cosineSim u v = cosineSim v u := by
  unfold cosineSim
  rw [real_inner_comm, mul_comm]

theorem abs_cosineSim_le_one {n : ℕ} (u v : EuclideanSpace ℝ (Fin n)) :
    |cosineSim u v| ≤ 1 := by
  unfold cosineSim
  rcases eq_or_ne (‖u‖ * ‖v‖) 0 with h | h
  · simp [h]
  · have hpos : 0 < ‖u‖ * ‖v‖ := lt_of_le_of_ne (by positivity) (Ne.symm h)
    rw [abs_div, abs_of_pos hpos, div_le_one hpos]
    exact abs_real_inner_le_norm u v

theorem cosineSim_self {n : ℕ} (v : EuclideanSpace ℝ (Fin n)) (hv : v ≠ 0) :
    cosineSim v v = 1 := by
  unfold cosineSim
  rw [real_inner_self_eq_norm_mul_norm]
  have hn : ‖v‖ ≠ 0 := norm_ne_zero_iff.mpr hv
  field_simp

/-- C8: the similarity score is symmetric, bounded in the closed interval
from -1 to 1, and the score of a text against itself is exactly 1, which
clears the 0.85 Precision-tier threshold. -/
theorem similarity_symmetric_bounded {n : ℕ}
    (embed : String → EuclideanSpace ℝ (Fin n)) (a b t : String)
    (ht : embed t ≠ 0) :
    scoreTexts embed a b = scoreTexts embed b a ∧
    -1 ≤ scoreTexts embed a b ∧ scoreTexts embed a b ≤ 1 ∧
    scoreTexts embed t t = 1 ∧ (85 : ℝ)/100 ≤ scoreTexts embed t t := by
  have hb := abs_le.mp (abs_cosineSim_le_one (embed a) (embed b))
  refine ⟨cosineSim_comm _ _, hb.1, hb.2, cosineSim_self _ ht, ?_⟩
  rw [scoreTexts, cosineSim_self _ ht]
  norm_num

theorem similarity_symmetric_bounded_witness :
    scoreTexts embedOne "query a" "query b" = scoreTexts embedOne "query b" "query a" ∧
    -1 ≤ scoreTexts embedOne "query a" "query b" ∧
    scoreTexts embedOne "query a" "query b" ≤ 1 ∧
    scoreTexts embedOne "query c" "query c" = 1 ∧
    (85 : ℝ)/100 ≤ scoreTexts embedOne "query c" "query c" :=
  similarity_symmetric_bounded embedOne "query a" "query b" "query c"
    (fun h => one_ne_zero (congrFun h 0))

/-- C9: surviving one frame of the debris animation never moves a particle
out of the merged state back to falling, a falling particle merges only
when its updated y coordinate passes the liquid-zone top, and a merged
particle's alpha is scaled by 19/20 each frame — strictly decreasing
toward zero while the particle survives. -/
theorem debris_merge_monotone (g dr zt ch : Rat) (p q : DebrisParticle)
    (h : stepDebris g dr zt ch p = some q) :
    (q.state = DebrisState.falling → p.state = DebrisState.falling) ∧
    (p.state = DebrisState.falling → q.state = DebrisState.merged →
      zt < p.y + (p.vy + g)) ∧
    (p.state = DebrisState.merged → q.state = DebrisState.merged ∧
      q.alpha = (19/20) * p.alpha ∧ q.alpha < p.alpha ∧
      (1/100 : Rat) ≤ q.alpha) := by
  simp only [stepDebris] at h
  split at h
  · next hc =>
      split at h
      · simp at h
      · next hg =>
          rw [Option.some.injEq] at h
          subst h
          refine ⟨?_, ?_, ?_⟩
          · intro hq
            simp at hq
          · intro _ _
            exact hc.2
          · intro hm
            rw [hm] at hc
            simp at hc
  · next hc =>
      have ha : lerp p.alpha 0 (5/100) = (19/20) * p.alpha := by
        unfold lerp
        ring
      by_cases hm : p.state = DebrisState.merged
      · rw [if_pos hm] at h
        split at h
        · simp at h
        · next hg =>
            rw [Option.some.injEq] at h
            subst h
            push_neg at hg
            have h100 : (1/100 : Rat) ≤ lerp p.alpha 0 (5/100) := hg.1
            refine ⟨fun hq => hq, ?_, fun _ => ⟨hm, ha, ?_, h100⟩⟩
            · intro hf _
              rw [hf] at hm
              simp at hm
            · show lerp p.alpha 0 (5/100) < p.alpha
              rw [ha] at h100 ⊢
              nlinarith [h100]
      · rw [if_neg hm] at h
        split at h
        · simp at h
        · next hg =>
            rw [Option.some.injEq] at h
            subst h
            refine ⟨fun hq => hq, ?_, fun hmm => absurd hmm hm⟩
            intro hf hq
            rw [hf] at hq
            simp at hq

theorem debris_merge_monotone_witness :
    c9Next.state = DebrisState.merged ∧
    c9Next.alpha = (19/20) * c9Debris.alpha ∧
    c9Next.alpha < c9Debris.alpha ∧ (1/100 : Rat) ≤ c9Next.alpha :=
  (debris_merge_monotone (1/4) (98/100) 100 1000 c9Debris c9Next
    (by norm_num [stepDebris, lerp, c9Debris, c9Next])).2.2 rfl

theorem stepBubble_some (sinFn : Rat → Rat) (b b2 : Bubble)
    (h : stepBubble sinFn b = some b2) :
    b2.life = b.life + 1 ∧ b2.maxLife = b.maxLife := by
  simp only [stepBubble] at h
  split at h
  · simp at h
  · rw [Option.some.injEq] at h
    subst h
    exact ⟨rfl, rfl⟩

theorem stepBubble_none_iff (sinFn : Rat → Rat) (b : Bubble) :
    stepBubble sinFn b = none ↔ b.maxLife < ((b.life + 1 : Nat) : Rat) := by
  simp only [stepBubble]
  split
  · next hc => simpa using hc
  · next hc => simpa using hc

theorem stepBubbleN_dead (sinFn : Rat → Rat) (n : Nat) :
    ∀ b : Bubble, b.maxLife < ((b.life + n : Nat) : Rat) → 1 ≤ n →
      stepBubbleN sinFn n b = none := by
  induction n with
  | zero => intro b hml h1; exact absurd h1 (by decide)
  | succ m ih =>
      intro b hml h1
      cases hs : stepBubble sinFn b with
      | none => simp [stepBubbleN, hs]
      | some b2 =>
          rcases Nat.eq_zero_or_pos m with rfl | hm1
          · have hnone := (stepBubble_none_iff sinFn b).mpr hml
            rw [hnone] at hs
            simp at hs
          · have hlm := stepBubble_some sinFn b b2 hs
            have hstep : stepBubbleN sinFn (m + 1) b = stepBubbleN sinFn m b2 := by
              simp [stepBubbleN, hs]
            rw [hstep]
            apply ih b2 _ hm1
            rw [hlm.1, hlm.2]
            have e : b.life + 1 + m = b.life + (m + 1) := by omega
            rw [e]
            exact hml

/-- C10: a freshly created evaporation bubble has maxLife strictly below
200 and life 0, each surviving animation frame increments life by exactly
one and keeps maxLife, a bubble is removed exactly on the first frame
whose incremented life exceeds maxLife, and hence every fresh bubble is
gone within 200 frames. -/
theorem bubble_bounded_lifetime (sinFn : Rat → Rat)
    (w hh rx ry rvx rvy rs rml : Rat) (h0 : 0 ≤ rml) (h1 : rml < 1) :
    (mkBubble w hh rx ry rvx rvy rs rml).maxLife < 200 ∧
    (100 : Rat) ≤ (mkBubble w hh rx ry rvx rvy rs rml).maxLife ∧
    (mkBubble w hh rx ry rvx rvy rs rml).life = 0 ∧
    (∀ b b2 : Bubble, stepBubble sinFn b = some b2 →
      b2.life = b.life + 1 ∧ b2.maxLife = b.maxLife) ∧
    (∀ b : Bubble, stepBubble sinFn b = none ↔
      b.maxLife < ((b.life + 1 : Nat) : Rat)) ∧
    stepBubbleN sinFn 200 (mkBubble w hh rx ry rvx rvy rs rml) = none := by
  have hml : (mkBubble w hh rx ry rvx rvy rs rml).maxLife < 200 := by
    show (100 : Rat) + rml * 100 < 200
    nlinarith
  have hml2 : (100 : Rat) ≤ (mkBubble w hh rx ry rvx rvy rs rml).maxLife := by
    show (100 : Rat) ≤ 100 + rml * 100
    nlinarith
  refine ⟨hml, hml2, rfl, stepBubble_some sinFn, stepBubble_none_iff sinFn, ?_⟩
  apply stepBubbleN_dead sinFn 200 _ _ (by norm_num)
  have e : (mkBubble w hh rx ry rvx rvy rs rml).life + 200 = 200 := by
    simp [mkBubble]
  rw [e]
  simpa using hml

theorem bubble_bounded_lifetime_witness :
    (0 : Rat) ≤ 1/2 ∧ (1/2 : Rat) < 1 ∧
    (mkBubble 800 600 (1/2) (1/2) (1/2) (1/2) (1/2) (1/2)).maxLife < 200 ∧
    stepBubbleN (fun v => v) 200
      (mkBubble 800 600 (1/2) (1/2) (1/2) (1/2) (1/2) (1/2)) = none := by
  refine ⟨by norm_num, by norm_num, ?_, ?_⟩
  · exact (bubble_bounded_lifetime (fun v => v) 800 600 (1/2) (1/2) (1/2) (1/2)
      (1/2) (1/2) (by norm_num) (by norm_num)).1
  · exact (bubble_bounded_lifetime (fun v => v) 800 600 (1/2) (1/2) (1/2) (1/2)
      (1/2) (1/2) (by norm_num) (by norm_num)).2.2.2.2.2

end Silence

